import Mathlib

/-!
Shallow embedding of `src/libsystemd-network/icmp6-util.c` (systemd):
raw ICMPv6 transport helpers for IPv6 Router Discovery (RFC 4861).

Kernel interaction (socket, setsockopt, sendmsg, recvmsg) is modelled by
explicit environment records describing what the kernel does on each call;
the C control flow over those results is translated faithfully.  Machine
integers are modelled as `Nat`/`Int` with explicit 2^w reductions where the
C code depends on width.  All definitions are executable.
-/

set_option autoImplicit false

namespace Icmp6Util

/-! ## Numeric constants (Linux x86-64 ABI values used by the C code) -/

def AF_INET6 : Nat := 10
def SOL_SOCKET : Nat := 1
def SOL_IPV6 : Nat := 41
def IPV6_HOPLIMIT : Nat := 52
def SCM_TIMESTAMP : Nat := 29
def ND_ROUTER_SOLICIT : Nat := 133
def ND_ROUTER_ADVERT : Nat := 134
def ND_OPT_SOURCE_LINKADDR : Nat := 1

def EINVAL : Nat := 22
def EADDRNOTAVAIL : Nat := 99
def EPFNOSUPPORT : Nat := 96
def EMULTIHOP : Nat := 72

/-- `sizeof(struct sockaddr_in6)` on Linux. -/
def sizeof_sockaddr_in6 : Nat := 28

/-- `CMSG_LEN(n)` on 64-bit Linux: `CMSG_ALIGN(sizeof(struct cmsghdr)) + n = 16 + n`. -/
def CMSG_LEN (n : Nat) : Nat := 16 + n

/-- `sizeof(int)` -/
def sizeof_int : Nat := 4

/-- `sizeof(struct timeval)` on 64-bit Linux (two 64-bit fields). -/
def sizeof_timeval : Nat := 16

/-! ## IPv6 addresses: 16-byte values as byte lists -/

/-- `IN6ADDR_ALL_ROUTERS_MULTICAST_INIT` — ff02::2 (icmp6-util.c lines 23-25). -/
def IN6ADDR_ALL_ROUTERS_MULTICAST : List Nat :=
  [0xff, 0x02, 0x00, 0x00, 0x00, 0x00, 0x00, 0x00,
   0x00, 0x00, 0x00, 0x00, 0x00, 0x00, 0x00, 0x02]

/-- `IN6ADDR_ALL_NODES_MULTICAST_INIT` — ff02::1 (icmp6-util.c lines 27-29). -/
def IN6ADDR_ALL_NODES_MULTICAST : List Nat :=
  [0xff, 0x02, 0x00, 0x00, 0x00, 0x00, 0x00, 0x00,
   0x00, 0x00, 0x00, 0x00, 0x00, 0x00, 0x00, 0x01]

/-- The all-zero IPv6 address (`struct in6_addr addr = {}`). -/
def zero_in6_addr : List Nat := List.replicate 16 0

/-- Modelled from the spec: `in6_addr_is_null` (in-addr-util, not under src/):
the unspecified address `::`, i.e. all sixteen bytes are zero. -/
def in6_addr_is_null (a : List Nat) : Bool :=
  a.all (fun b => b = 0)

/-- Modelled from the spec: `in6_addr_is_link_local` (in-addr-util, not under
src/): an address in fe80::/10, i.e. first byte 0xfe and the top two bits of
the second byte equal to 10 (binary). -/
def in6_addr_is_link_local (a : List Nat) : Bool :=
  a.getD 0 0 = 0xfe && (a.getD 1 0) % 256 &&& 0xc0 = 0x80

/-! ## Control messages (ancillary data) -/

/-- One `struct cmsghdr` entry as delivered by the kernel: level, type, the
`cmsg_len` header field, and the raw payload bytes following the header. -/
structure Cmsg where
  cmsg_level : Nat
  cmsg_type : Nat
  cmsg_len : Nat
  data : List Nat
deriving DecidableEq

/-- Decode 4 little-endian payload bytes as an unsigned 32-bit value. -/
def decodeU32 (bs : List Nat) : Nat :=
  (bs.getD 0 0) % 256 + 256 * ((bs.getD 1 0) % 256) +
    65536 * ((bs.getD 2 0) % 256) + 16777216 * ((bs.getD 3 0) % 256)

/-- Reinterpret an unsigned 32-bit value as a signed C `int` (two's complement). -/
def toInt32 (v : Nat) : Int :=
  if v < 2 ^ 31 then (v : Int) else (v : Int) - 2 ^ 32

/-- Decode 8 little-endian payload bytes as an unsigned 64-bit value. -/
def decodeU64 (bs : List Nat) : Nat :=
  decodeU32 (bs.take 4) + 4294967296 * decodeU32 ((bs.drop 4).take 4)

/-- Reinterpret an unsigned 64-bit value as a signed 64-bit integer. -/
def toInt64 (v : Nat) : Int :=
  if v < 2 ^ 63 then (v : Int) else (v : Int) - 2 ^ 64

/-- `*CMSG_TYPED_DATA(cmsg, int)`: the payload read as a C `int`. -/
def cmsgInt (c : Cmsg) : Int :=
  toInt32 (decodeU32 c.data)

/-- The payload read as a `struct timeval` (tv_sec at bytes 0-7, tv_usec at
bytes 8-15, both 64-bit little-endian). -/
def cmsgTimeval (c : Cmsg) : Int × Int :=
  (toInt64 (decodeU64 (c.data.take 8)), toInt64 (decodeU64 (c.data.drop 8)))

/-- The `(level, type, len)` guard of the hop-limit branch
(icmp6-util.c lines 196-198). -/
def wellFormedHopLimitCmsg (c : Cmsg) : Prop :=
  c.cmsg_level = SOL_IPV6 ∧ c.cmsg_type = IPV6_HOPLIMIT ∧
    c.cmsg_len = CMSG_LEN sizeof_int

instance (c : Cmsg) : Decidable (wellFormedHopLimitCmsg c) := by
  unfold wellFormedHopLimitCmsg; infer_instance

/-- A cmsg whose level and type mark it as a hop-limit entry, regardless of
its `cmsg_len`. -/
def hopLimitTypedCmsg (c : Cmsg) : Prop :=
  c.cmsg_level = SOL_IPV6 ∧ c.cmsg_type = IPV6_HOPLIMIT

instance (c : Cmsg) : Decidable (hopLimitTypedCmsg c) := by
  unfold hopLimitTypedCmsg; infer_instance

/-- The `(level, type, len)` guard of the timestamp branch
(icmp6-util.c lines 205-207). -/
def timestampCmsg (c : Cmsg) : Prop :=
  c.cmsg_level = SOL_SOCKET ∧ c.cmsg_type = SCM_TIMESTAMP ∧
    c.cmsg_len = CMSG_LEN sizeof_timeval

instance (c : Cmsg) : Decidable (timestampCmsg c) := by
  unfold timestampCmsg; infer_instance

/-! ## Timestamps

`triple_timestamp` and its helpers live in systemd's time-util, which is not
part of this excerpt; they are modelled from the spec: a packet-arrival time
held simultaneously in the realtime, monotonic and boot-time clock bases,
derived either from a kernel-supplied realtime sample or captured at return
time.  Times are microsecond counts (`usec_t`, unsigned 64-bit). -/

def USEC_PER_SEC : Nat := 1000000

def USEC_INFINITY : Nat := 2 ^ 64 - 1

structure triple_timestamp where
  realtime : Nat
  monotonic : Nat
  boottime : Nat
deriving DecidableEq

/-- `triple_timestamp t = {}` — the zero-initialized local of `icmp6_receive`. -/
def triple_timestamp_zero : triple_timestamp := ⟨0, 0, 0⟩

/-- The current readings of the three clocks at the moment `icmp6_receive`
returns; an input to the model since the code samples the real clocks. -/
structure ClockEnv where
  realtime_now : Nat
  monotonic_now : Nat
  boottime_now : Nat
deriving DecidableEq

/-- Modelled from the spec: `timeval_load` (time-util, not under src/):
convert a `struct timeval` to microseconds; negative fields or overflow give
the infinity sentinel. -/
def timeval_load (tv : Int × Int) : Nat :=
  if tv.1 < 0 ∨ tv.2 < 0 then USEC_INFINITY
  else if tv.1.toNat > (USEC_INFINITY - tv.2.toNat) / USEC_PER_SEC then USEC_INFINITY
  else tv.1.toNat * USEC_PER_SEC + tv.2.toNat

/-- Modelled from the spec: clock-base mapping used by
`triple_timestamp_from_realtime` (time-util, not under src/): shift a sample
from one clock base onto another, saturating at 0 and at infinity. -/
def map_clock_usec (fr fr_base to_base : Nat) : Nat :=
  if fr ≥ fr_base then
    if to_base ≥ USEC_INFINITY - (fr - fr_base) then USEC_INFINITY
    else to_base + (fr - fr_base)
  else if to_base ≤ fr_base - fr then 0
  else to_base - (fr_base - fr)

/-- Modelled from the spec: `triple_timestamp_from_realtime` (time-util, not
under src/): derive all three clock bases from a kernel-supplied realtime
sample; a zero or infinite sample yields a degenerate (unset) value. -/
def triple_timestamp_from_realtime (env : ClockEnv) (u : Nat) : triple_timestamp :=
  if u = USEC_INFINITY ∨ u = 0 then ⟨u, u, u⟩
  else ⟨u, map_clock_usec u env.realtime_now env.monotonic_now,
        map_clock_usec u env.realtime_now env.boottime_now⟩

/-- Modelled from the spec: `triple_timestamp_get` (time-util, not under
src/): capture the current time in all three clock bases. -/
def triple_timestamp_get (env : ClockEnv) : triple_timestamp :=
  ⟨env.realtime_now, env.monotonic_now, env.boottime_now⟩

/-- Modelled from the spec: `triple_timestamp_is_set` (time-util, not under
src/): whether a timestamp was captured, judged on the realtime field. -/
def triple_timestamp_is_set (t : triple_timestamp) : Bool :=
  t.realtime > 0 && t.realtime ≠ USEC_INFINITY

/-! ## The receive path: `icmp6_receive` (icmp6-util.c lines 147-223) -/

/-- What one `recvmsg` call delivered: the full datagram payload, the sender
name (`msg_namelen`, address family, in6 address bytes) and the list of
control messages.  `msg_flags & MSG_TRUNC` is determined by the datagram
being longer than the caller's buffer. -/
structure Delivery where
  data : List Nat
  nameLen : Nat
  senderFamily : Nat
  senderAddr : List Nat
  cmsgs : List Cmsg
deriving DecidableEq

/-- Result of `recvmsg_safe` (socket-util, not under src/), modelled from the
spec: either the receive fails with an error code that `icmp6_receive`
propagates unchanged, or the kernel delivers a datagram. -/
inductive RecvInput where
  | err (e : Nat)
  | dgram (d : Delivery)
deriving DecidableEq

/-- Observable outcome of one `icmp6_receive` call: the returned code, the
caller's buffer after the call (`recvmsg` writes it in place), and the
values stored through `ret_sender` / `ret_timestamp` (`none` = not written).
`assertFail` models the `assert(!(msg.msg_flags & MSG_TRUNC))` aborting. -/
inductive CallResult where
  | ret (code : Int) (buffer : List Nat) (sender : Option (List Nat))
      (timestamp : Option triple_timestamp)
  | assertFail (buffer : List Nat)
deriving DecidableEq

def CallResult.retCode : CallResult → Option Int
  | .ret c _ _ _ => some c
  | .assertFail _ => none

def CallResult.bufferOut : CallResult → List Nat
  | .ret _ b _ _ => b
  | .assertFail b => b

def CallResult.senderOut : CallResult → Option (List Nat)
  | .ret _ _ s _ => s
  | .assertFail _ => none

def CallResult.timestampOut : CallResult → Option triple_timestamp
  | .ret _ _ _ t => t
  | .assertFail _ => none

def CallResult.isSuccess : CallResult → Bool
  | .ret c _ _ _ => c = 0
  | .assertFail _ => false

/-- The `CMSG_FOREACH` loop of `icmp6_receive` (lines 195-211): walk the
control messages; a well-formed hop-limit entry whose value is not 255
returns `-EMULTIHOP` at once; each well-formed timestamp entry overwrites
the accumulated timestamp; everything else is skipped. -/
def scanCmsgs (env : ClockEnv) : List Cmsg → triple_timestamp →
    Except Nat triple_timestamp
  | [], t => .ok t
  | c :: rest, t =>
      if wellFormedHopLimitCmsg c ∧ cmsgInt c ≠ 255 then .error EMULTIHOP
      else
        scanCmsgs env rest
          (if timestampCmsg c then
            triple_timestamp_from_realtime env (timeval_load (cmsgTimeval c))
          else t)

/-- Tail of `icmp6_receive` after sender classification (lines 193-222):
the truncation assert, the cmsg scan, the timestamp fallback, and the final
writes through the output pointers. -/
def receiveTail (env : ClockEnv) (buf : List Nat) (size : Nat) (d : Delivery)
    (addr : List Nat) : CallResult :=
  if d.data.length > size then CallResult.assertFail buf
  else
    match scanCmsgs env d.cmsgs triple_timestamp_zero with
    | .error e => CallResult.ret (-(e : Int)) buf none none
    | .ok t =>
        CallResult.ret 0 buf (some addr)
          (some (if triple_timestamp_is_set t then t else triple_timestamp_get env))

/-- `icmp6_receive` (icmp6-util.c lines 147-223).  The caller passes its
buffer and the exact expected `size`; `input` is what the kernel did.
`recvmsg` copies `min (d.data.length) size` bytes into the buffer before any
validation; the C code then checks the byte count, classifies the sender
address, asserts non-truncation, scans ancillary data, and only on full
success stores the sender address and timestamp. -/
def icmp6_receive (env : ClockEnv) (buffer : List Nat) (size : Nat)
    (input : RecvInput) : CallResult :=
  match input with
  | .err e => CallResult.ret (-(e : Int)) buffer none none
  | .dgram d =>
      let len := min d.data.length size
      let buf := d.data.take len ++ buffer.drop len
      if len ≠ size then CallResult.ret (-(EINVAL : Int)) buf none none
      else if d.nameLen = sizeof_sockaddr_in6 ∧ d.senderFamily = AF_INET6 then
        if ¬ in6_addr_is_link_local d.senderAddr ∧ ¬ in6_addr_is_null d.senderAddr then
          CallResult.ret (-(EADDRNOTAVAIL : Int)) buf none none
        else receiveTail env buf size d d.senderAddr
      else if d.nameLen > 0 then CallResult.ret (-(EPFNOSUPPORT : Int)) buf none none
      else receiveTail env buf size d zero_in6_addr

/-! ## The send path: `icmp6_send_router_solicitation` (lines 111-145) -/

/-- The packed on-stack struct built by `icmp6_send_router_solicitation`:
a `struct nd_router_solicit` (type, code, 16-bit checksum, 32-bit reserved,
all but the type left zero-initialized — the kernel computes the checksum),
a `struct nd_opt_hdr` and the 6-byte `struct ether_addr`. -/
structure rs_message where
  nd_rs_type : Nat
  nd_rs_code : Nat
  nd_rs_cksum : Nat
  nd_rs_reserved : Nat
  nd_opt_type : Nat
  nd_opt_len : Nat
  rs_opt_mac : List Nat
deriving DecidableEq

/-- The initializer of `rs` in `icmp6_send_router_solicitation` (lines
116-124, 139): everything zero except the message type, the option type,
the option length, and the copied-in hardware address. -/
def mk_rs (ether_addr : List Nat) : rs_message :=
  ⟨ND_ROUTER_SOLICIT, 0, 0, 0, ND_OPT_SOURCE_LINKADDR, 1, ether_addr⟩

/-- Serialize the packed struct to wire bytes (network byte order; the
struct is `_packed_`, so fields follow each other with no padding). -/
def rs_serialize (m : rs_message) : List Nat :=
  [m.nd_rs_type % 256, m.nd_rs_code % 256,
   m.nd_rs_cksum / 256 % 256, m.nd_rs_cksum % 256,
   m.nd_rs_reserved / 16777216 % 256, m.nd_rs_reserved / 65536 % 256,
   m.nd_rs_reserved / 256 % 256, m.nd_rs_reserved % 256,
   m.nd_opt_type % 256, m.nd_opt_len % 256] ++ m.rs_opt_mac

/-- What the kernel does on the `sendmsg` call: its return value (byte
count or -1) and, for the failure case, the `errno` it sets. -/
structure SendEnv where
  sendmsgRet : Int
  errnoVal : Nat
deriving DecidableEq

/-- Outcome of `icmp6_send_router_solicitation`: the returned code, the
bytes handed to `sendmsg`, and the destination address. -/
structure SendResult where
  ret : Int
  packet : List Nat
  dst : List Nat
deriving DecidableEq

/-- `icmp6_send_router_solicitation` (icmp6-util.c lines 111-145): build the
fixed 16-byte Router Solicitation carrying the source link-layer-address
option, send it to the all-routers multicast address, and return 0 unless
`sendmsg` reported failure, in which case return `-errno`. -/
def icmp6_send_router_solicitation (env : SendEnv) (ether_addr : List Nat) :
    SendResult :=
  ⟨if env.sendmsgRet < 0 then -(env.errnoVal : Int) else 0,
   rs_serialize (mk_rs ether_addr),
   IN6ADDR_ALL_ROUTERS_MULTICAST⟩

/-! ## The bind path: `icmp6_bind_router_message` and its two wrappers
(lines 31-109) -/

/-- `struct icmp6_filter`: eight 32-bit words, one bit per ICMPv6 type;
a SET bit means the type is blocked. -/
def ICMP6_FILTER_SETBLOCKALL : List Nat := List.replicate 8 0xffffffff

/-- `ICMP6_FILTER_SETPASS(type, filt)`:
`filt[type >> 5] &= ~(1 << (type & 31))`. -/
def ICMP6_FILTER_SETPASS (ty : Nat) (f : List Nat) : List Nat :=
  f.set (ty / 32) ((f.getD (ty / 32) 0) &&& (0xffffffff ^^^ (1 <<< (ty % 32))))

/-- `ICMP6_FILTER_WILLPASS(type, filt)`:
`(filt[type >> 5] & (1 << (type & 31))) == 0`. -/
def ICMP6_FILTER_WILLPASS (ty : Nat) (f : List Nat) : Bool :=
  (f.getD (ty / 32) 0) &&& (1 <<< (ty % 32)) = 0

/-- `struct ipv6_mreq`: multicast group plus interface index. -/
structure ipv6_mreq where
  ipv6mr_multiaddr : List Nat
  ipv6mr_interface : Int
deriving DecidableEq

/-- What the kernel does during one `icmp6_bind_router_message` call: the
result of `socket()` (the descriptor, or `-errno` when negative) and the
value each of the nine subsequent setup calls yields (the code the C
function would return: negative on failure, ≥ 0 on success). -/
structure BindEnv where
  socketRet : Int
  filterRet : Int
  membershipRet : Int
  multicastIfRet : Int
  multicastLoopRet : Int
  multicastHopsRet : Int
  unicastHopsRet : Int
  recvHopLimitRet : Int
  timestampRet : Int
  bindIfindexRet : Int
deriving DecidableEq

/-- The socket configuration installed when every setup step succeeds:
each field records the argument of the corresponding setup call
(lines 44-78). -/
structure SocketConfig where
  filter : List Nat
  group : List Nat
  multicast_if : Int
  multicast_loop : Bool
  multicast_hops : Nat
  unicast_hops : Nat
  recv_hoplimit : Bool
  so_timestamp : Bool
  bound_ifindex : Int
deriving DecidableEq

/-- Observable outcome of `icmp6_bind_router_message`: the returned code,
whether a descriptor was created, whether the `_cleanup_close_` scope guard
closed it before returning, and the fully applied configuration when the
function succeeded. -/
structure BindOutcome where
  ret : Int
  opened : Bool
  closed : Bool
  config : Option SocketConfig
deriving DecidableEq

/-- `icmp6_bind_router_message` (icmp6-util.c lines 31-83): create a raw
ICMPv6 socket and run the nine setup steps in order; the first failing step
returns its negative code and the `_cleanup_close_` guard closes the
descriptor; when all succeed `TAKE_FD` transfers ownership to the caller
(the guard then closes nothing). -/
def icmp6_bind_router_message (env : BindEnv) (filter : List Nat)
    (mreq : ipv6_mreq) : BindOutcome :=
  if env.socketRet < 0 then ⟨env.socketRet, false, false, none⟩
  else if env.filterRet < 0 then ⟨env.filterRet, true, true, none⟩
  else if env.membershipRet < 0 then ⟨env.membershipRet, true, true, none⟩
  else if env.multicastIfRet < 0 then ⟨env.multicastIfRet, true, true, none⟩
  else if env.multicastLoopRet < 0 then ⟨env.multicastLoopRet, true, true, none⟩
  else if env.multicastHopsRet < 0 then ⟨env.multicastHopsRet, true, true, none⟩
  else if env.unicastHopsRet < 0 then ⟨env.unicastHopsRet, true, true, none⟩
  else if env.recvHopLimitRet < 0 then ⟨env.recvHopLimitRet, true, true, none⟩
  else if env.timestampRet < 0 then ⟨env.timestampRet, true, true, none⟩
  else if env.bindIfindexRet < 0 then ⟨env.bindIfindexRet, true, true, none⟩
  else ⟨env.socketRet, true, false,
        some ⟨filter, mreq.ipv6mr_multiaddr, mreq.ipv6mr_interface, false,
              255, 255, true, true, mreq.ipv6mr_interface⟩⟩

/-- The filter built by `icmp6_bind_router_solicitation` (lines 85-93):
block all, then pass Router Advertisements. -/
def solicitation_filter : List Nat :=
  ICMP6_FILTER_SETPASS ND_ROUTER_ADVERT ICMP6_FILTER_SETBLOCKALL

/-- The filter built by `icmp6_bind_router_advertisement` (lines 98-106):
block all, then pass Router Solicitations. -/
def advertisement_filter : List Nat :=
  ICMP6_FILTER_SETPASS ND_ROUTER_SOLICIT ICMP6_FILTER_SETBLOCKALL

/-- `icmp6_bind_router_solicitation` (icmp6-util.c lines 85-96). -/
def icmp6_bind_router_solicitation (env : BindEnv) (ifindex : Int) :
    BindOutcome :=
  icmp6_bind_router_message env solicitation_filter
    ⟨IN6ADDR_ALL_NODES_MULTICAST, ifindex⟩

/-- `icmp6_bind_router_advertisement` (icmp6-util.c lines 98-109). -/
def icmp6_bind_router_advertisement (env : BindEnv) (ifindex : Int) :
    BindOutcome :=
  icmp6_bind_router_message env advertisement_filter
    ⟨IN6ADDR_ALL_ROUTERS_MULTICAST, ifindex⟩

/-! ## Derived predicates -/

/-- The sender classification of lines 181-191 accepts the datagram: either
a well-formed IPv6 sender that is link-local or unspecified, or no sender
name at all. -/
def senderAccepted (d : Delivery) : Prop :=
  (d.nameLen = sizeof_sockaddr_in6 ∧ d.senderFamily = AF_INET6 ∧
    (in6_addr_is_link_local d.senderAddr = true ∨ in6_addr_is_null d.senderAddr = true))
  ∨ d.nameLen = 0

/-! ## Lemmas about the control-message scan -/

theorem scanCmsgs_error_of_badHop (env : ClockEnv) (l : List Cmsg)
    (t : triple_timestamp)
    (h : ∃ c ∈ l, wellFormedHopLimitCmsg c ∧ cmsgInt c ≠ 255) :
    scanCmsgs env l t = .error EMULTIHOP := by
  induction l generalizing t with
  | nil => rcases h with ⟨c, hc, _⟩; cases hc
  | cons a rest ih =>
      rcases h with ⟨c, hc, hwf, hv⟩
      rcases List.mem_cons.mp hc with rfl | hmem
      · simp only [scanCmsgs, if_pos (And.intro hwf hv)]
      · by_cases ha : wellFormedHopLimitCmsg a ∧ cmsgInt a ≠ 255
        · simp only [scanCmsgs, if_pos ha]
        · simp only [scanCmsgs, if_neg ha]
          exact ih _ ⟨c, hmem, hwf, hv⟩

theorem scanCmsgs_error_elim (env : ClockEnv) (l : List Cmsg)
    (t : triple_timestamp) (e : Nat)
    (h : scanCmsgs env l t = .error e) :
    e = EMULTIHOP ∧ ∃ c ∈ l, wellFormedHopLimitCmsg c ∧ cmsgInt c ≠ 255 := by
  induction l generalizing t with
  | nil => simp [scanCmsgs] at h
  | cons a rest ih =>
      by_cases ha : wellFormedHopLimitCmsg a ∧ cmsgInt a ≠ 255
      · simp only [scanCmsgs, if_pos ha, Except.error.injEq] at h
        exact ⟨h.symm, a, List.mem_cons_self a rest, ha⟩
      · simp only [scanCmsgs, if_neg ha] at h
        obtain ⟨he, c, hc, hp⟩ := ih _ h
        exact ⟨he, c, List.mem_cons_of_mem a hc, hp⟩

theorem scanCmsgs_ok_of_goodHops (env : ClockEnv) (l : List Cmsg)
    (t : triple_timestamp)
    (h : ∀ c ∈ l, wellFormedHopLimitCmsg c → cmsgInt c = 255) :
    ∃ t', scanCmsgs env l t = .ok t' := by
  induction l generalizing t with
  | nil => exact ⟨t, rfl⟩
  | cons a rest ih =>
      have ha : ¬ (wellFormedHopLimitCmsg a ∧ cmsgInt a ≠ 255) := by
        rintro ⟨hwf, hv⟩
        exact hv (h a (List.mem_cons_self a rest) hwf)
      simp only [scanCmsgs, if_neg ha]
      exact ih _ (fun c hc => h c (List.mem_cons_of_mem a hc))

theorem scanCmsgs_ok_of_noTimestamp (env : ClockEnv) (l : List Cmsg)
    (t t' : triple_timestamp)
    (hts : ∀ c ∈ l, ¬ timestampCmsg c)
    (h : scanCmsgs env l t = .ok t') : t' = t := by
  induction l generalizing t with
  | nil =>
      simp only [scanCmsgs, Except.ok.injEq] at h
      exact h.symm
  | cons a rest ih =>
      by_cases ha : wellFormedHopLimitCmsg a ∧ cmsgInt a ≠ 255
      · simp only [scanCmsgs, if_pos ha] at h
        cases h
      · simp only [scanCmsgs, if_neg ha,
          if_neg (hts a (List.mem_cons_self a rest))] at h
        exact ih _ (fun c hc => hts c (List.mem_cons_of_mem a hc)) h

theorem scanCmsgs_singleton_timestamp (env : ClockEnv) (c : Cmsg)
    (t : triple_timestamp) (hts : timestampCmsg c) :
    scanCmsgs env [c] t =
      .ok (triple_timestamp_from_realtime env (timeval_load (cmsgTimeval c))) := by
  have hna : ¬ (wellFormedHopLimitCmsg c ∧ cmsgInt c ≠ 255) := by
    rintro ⟨⟨hl, _⟩, _⟩
    rw [hts.1] at hl
    exact absurd hl (by decide)
  simp only [scanCmsgs, if_neg hna, if_pos hts]

/-! ## Lemmas about the receive tail -/

theorem receiveTail_emultihop (env : ClockEnv) (buf : List Nat) (size : Nat)
    (d : Delivery) (addr : List Nat)
    (hnt : ¬ d.data.length > size)
    (hscan : scanCmsgs env d.cmsgs triple_timestamp_zero = .error EMULTIHOP) :
    (receiveTail env buf size d addr).retCode = some (-(EMULTIHOP : Int)) := by
  simp only [receiveTail, if_neg hnt, hscan, CallResult.retCode]

theorem receiveTail_not_success_of_badHop (env : ClockEnv) (buf : List Nat)
    (size : Nat) (d : Delivery) (addr : List Nat)
    (hscan : scanCmsgs env d.cmsgs triple_timestamp_zero = .error EMULTIHOP) :
    (receiveTail env buf size d addr).isSuccess = false := by
  by_cases hnt : d.data.length > size
  · simp only [receiveTail, if_pos hnt, CallResult.isSuccess]
  · simp only [receiveTail, if_neg hnt, hscan, CallResult.isSuccess]
    decide

theorem receiveTail_success_of_goodHops (env : ClockEnv) (buf : List Nat)
    (size : Nat) (d : Delivery) (addr : List Nat)
    (hnt : ¬ d.data.length > size)
    (hgood : ∀ c ∈ d.cmsgs, wellFormedHopLimitCmsg c → cmsgInt c = 255) :
    (receiveTail env buf size d addr).isSuccess = true := by
  obtain ⟨t, ht⟩ := scanCmsgs_ok_of_goodHops env d.cmsgs triple_timestamp_zero hgood
  simp only [receiveTail, if_neg hnt, ht, CallResult.isSuccess]
  decide

/-! ## C1: hop-limit enforcement -/

/-- C1: a delivered datagram carrying a (well-formed, as the kernel builds
them) hop-limit ancillary entry whose value is not 255 makes
`icmp6_receive` fail with `-EMULTIHOP` whenever the size and sender checks
that precede the scan pass, and never lets such a packet through as
success under any circumstances. -/
theorem icmp6_receive_rejects_bad_hoplimit (env : ClockEnv)
    (buffer : List Nat) (size : Nat) (d : Delivery)
    (hhop : ∃ c ∈ d.cmsgs, wellFormedHopLimitCmsg c ∧ cmsgInt c ≠ 255) :
    (d.data.length = size → senderAccepted d →
      (icmp6_receive env buffer size (.dgram d)).retCode =
        some (-(EMULTIHOP : Int)))
    ∧ (icmp6_receive env buffer size (.dgram d)).isSuccess = false := by
  have hscan := scanCmsgs_error_of_badHop env d.cmsgs triple_timestamp_zero hhop
  constructor
  · intro hlen hacc
    simp only [icmp6_receive, hlen, Nat.min_self]
    split_ifs with h1 h2 h3 h4
    · exact absurd rfl h1
    · rcases hacc with ⟨_, _, hlk⟩ | h0
      · rcases hlk with h | h
        · exact absurd h h3.1
        · exact absurd h h3.2
      · rw [h0] at h2
        exact absurd h2.1 (by decide)
    · exact receiveTail_emultihop env _ size d d.senderAddr
        (by rw [hlen]; exact lt_irrefl size) hscan
    · rcases hacc with ⟨h28, hfam, _⟩ | h0
      · exact absurd ⟨h28, hfam⟩ h2
      · rw [h0] at h4
        exact absurd h4 (by decide)
    · exact receiveTail_emultihop env _ size d zero_in6_addr
        (by rw [hlen]; exact lt_irrefl size) hscan
  · simp only [icmp6_receive]
    split_ifs with h1 h2 h3 h4
    · simp only [CallResult.isSuccess]; decide
    · simp only [CallResult.isSuccess]; decide
    · exact receiveTail_not_success_of_badHop env _ size d d.senderAddr hscan
    · simp only [CallResult.isSuccess]; decide
    · exact receiveTail_not_success_of_badHop env _ size d zero_in6_addr hscan

/-- Witness for C1: a well-formed datagram from a link-local sender whose
hop-limit ancillary entry reads 7. -/
theorem icmp6_receive_rejects_bad_hoplimit_witness :
    (∃ c ∈ [(⟨SOL_IPV6, IPV6_HOPLIMIT, CMSG_LEN sizeof_int, [7, 0, 0, 0]⟩ : Cmsg)],
      wellFormedHopLimitCmsg c ∧ cmsgInt c ≠ 255) ∧
    ([133] : List Nat).length = 1 ∧
    senderAccepted ⟨[133], 0, 0, [],
      [⟨SOL_IPV6, IPV6_HOPLIMIT, CMSG_LEN sizeof_int, [7, 0, 0, 0]⟩]⟩ ∧
    (icmp6_receive ⟨100, 200, 300⟩ [9] 1
      (.dgram ⟨[133], 0, 0, [],
        [⟨SOL_IPV6, IPV6_HOPLIMIT, CMSG_LEN sizeof_int, [7, 0, 0, 0]⟩]⟩)).retCode =
      some (-(EMULTIHOP : Int)) :=
  ⟨⟨⟨SOL_IPV6, IPV6_HOPLIMIT, CMSG_LEN sizeof_int, [7, 0, 0, 0]⟩,
     by decide, by decide, by decide⟩, by decide, Or.inr rfl,
   (icmp6_receive_rejects_bad_hoplimit ⟨100, 200, 300⟩ [9] 1
     ⟨[133], 0, 0, [], [⟨SOL_IPV6, IPV6_HOPLIMIT, CMSG_LEN sizeof_int, [7, 0, 0, 0]⟩]⟩
     ⟨⟨SOL_IPV6, IPV6_HOPLIMIT, CMSG_LEN sizeof_int, [7, 0, 0, 0]⟩,
      by decide, by decide, by decide⟩).1 (by decide) (Or.inr rfl)⟩

/-! ## C2: sender-address classification -/

/-- C2: once the size check passed, a present IPv6 sender that is neither
link-local nor unspecified is rejected with `-EADDRNOTAVAIL`; a present
sender of another family with `-EPFNOSUPPORT`; and an absent sender name
(`msg_namelen == 0`) is tolerated — with benign ancillary data the call
succeeds. -/
theorem icmp6_receive_sender_classification (env : ClockEnv)
    (buffer : List Nat) (size : Nat) (d : Delivery)
    (hlen : min d.data.length size = size) :
    ((d.nameLen = sizeof_sockaddr_in6 ∧ d.senderFamily = AF_INET6 ∧
        in6_addr_is_link_local d.senderAddr = false ∧
        in6_addr_is_null d.senderAddr = false) →
      (icmp6_receive env buffer size (.dgram d)).retCode =
        some (-(EADDRNOTAVAIL : Int)))
    ∧ (d.nameLen > 0 → d.senderFamily ≠ AF_INET6 →
      (icmp6_receive env buffer size (.dgram d)).retCode =
        some (-(EPFNOSUPPORT : Int)))
    ∧ (d.nameLen = 0 → d.data.length ≤ size →
        (∀ c ∈ d.cmsgs, wellFormedHopLimitCmsg c → cmsgInt c = 255) →
        (icmp6_receive env buffer size (.dgram d)).isSuccess = true) := by
  have hmin : ¬ (min d.data.length size ≠ size) := fun h => h hlen
  refine ⟨?_, ?_, ?_⟩
  · rintro ⟨h28, hfam, hnl, hnn⟩
    simp only [icmp6_receive, if_neg hmin, if_pos (And.intro h28 hfam)]
    rw [if_pos]
    · rfl
    · constructor
      · rw [hnl]; decide
      · rw [hnn]; decide
  · intro hpos hfam
    have h2 : ¬ (d.nameLen = sizeof_sockaddr_in6 ∧ d.senderFamily = AF_INET6) :=
      fun h => hfam h.2
    simp only [icmp6_receive, if_neg hmin, if_neg h2, if_pos hpos]
    rfl
  · intro h0 hle hgood
    have h2 : ¬ (d.nameLen = sizeof_sockaddr_in6 ∧ d.senderFamily = AF_INET6) := by
      rintro ⟨h28, _⟩
      rw [h0] at h28
      exact absurd h28 (by decide)
    have h4 : ¬ d.nameLen > 0 := by rw [h0]; decide
    simp only [icmp6_receive, if_neg hmin, if_neg h2, if_neg h4]
    exact receiveTail_success_of_goodHops env _ size d zero_in6_addr
      (not_lt.mpr hle) hgood

/-- Witness for C2: a global-unicast (2001:…) sender is rejected with
`-EADDRNOTAVAIL`. -/
theorem icmp6_receive_sender_classification_witness :
    min ([133] : List Nat).length 1 = 1 ∧
    (icmp6_receive ⟨100, 200, 300⟩ [9] 1
      (.dgram ⟨[133], 28, 10,
        [0x20, 0x01, 0, 0, 0, 0, 0, 0, 0, 0, 0, 0, 0, 0, 0, 1], []⟩)).retCode =
      some (-(EADDRNOTAVAIL : Int)) :=
  ⟨by decide,
   (icmp6_receive_sender_classification ⟨100, 200, 300⟩ [9] 1
     ⟨[133], 28, 10, [0x20, 0x01, 0, 0, 0, 0, 0, 0, 0, 0, 0, 0, 0, 0, 0, 1], []⟩
     (by decide)).1 ⟨rfl, rfl, by decide, by decide⟩⟩

/-! ## C4: exact-size check -/

/-- C4: for every call on which the kernel delivers `M = min data size`
bytes with `M ≠ size`, `icmp6_receive` returns `-EINVAL`, whatever the
sender name and ancillary data are: the size check precedes address and
hop-limit classification. -/
theorem icmp6_receive_size_mismatch (env : ClockEnv) (buffer : List Nat)
    (size : Nat) (d : Delivery)
    (hm : min d.data.length size ≠ size) :
    (icmp6_receive env buffer size (.dgram d)).retCode =
      some (-(EINVAL : Int)) := by
  simp only [icmp6_receive, if_pos hm, CallResult.retCode]

/-- Witness for C4: a 1-byte datagram received with requested size 2. -/
theorem icmp6_receive_size_mismatch_witness :
    min ([5] : List Nat).length 2 ≠ 2 ∧
      (icmp6_receive ⟨100, 200, 300⟩ [7, 7] 2
        (.dgram ⟨[5], 0, 0, [], []⟩)).retCode = some (-(EINVAL : Int)) :=
  ⟨by decide, icmp6_receive_size_mismatch ⟨100, 200, 300⟩ [7, 7] 2
    ⟨[5], 0, 0, [], []⟩ (by decide)⟩

/-! ## C3: solicitation wire format -/

/-- C3: for every 6-byte link-layer address, the packet serialized by
`icmp6_send_router_solicitation` is exactly 16 bytes: byte 0 is type 133,
bytes 1-7 are the remaining zero-initialized ICMPv6 header, byte 8 is
option type 1, byte 9 is option length 1, and bytes 10-15 are the hardware
address, with nothing after them. -/
theorem icmp6_send_router_solicitation_wire_format (env : SendEnv)
    (mac : List Nat) (hlen : mac.length = 6) :
    (icmp6_send_router_solicitation env mac).packet.length = 16 ∧
    (icmp6_send_router_solicitation env mac).packet.getD 0 0 = 133 ∧
    (∀ i, 1 ≤ i → i ≤ 7 →
      (icmp6_send_router_solicitation env mac).packet.getD i 0 = 0) ∧
    (icmp6_send_router_solicitation env mac).packet.getD 8 0 = 1 ∧
    (icmp6_send_router_solicitation env mac).packet.getD 9 0 = 1 ∧
    (icmp6_send_router_solicitation env mac).packet.drop 10 = mac := by
  have hp : (icmp6_send_router_solicitation env mac).packet =
      [133, 0, 0, 0, 0, 0, 0, 0, 1, 1] ++ mac := by
    simp [icmp6_send_router_solicitation, rs_serialize, mk_rs,
      ND_ROUTER_SOLICIT, ND_OPT_SOURCE_LINKADDR]
  rw [hp]
  refine ⟨by simp [hlen], rfl, ?_, rfl, rfl, rfl⟩
  intro i h1 h7
  interval_cases i <;> rfl

/-- Witness for C3: the spec's example address `AA:BB:CC:DD:EE:FF`. -/
theorem icmp6_send_router_solicitation_wire_format_witness :
    ([0xaa, 0xbb, 0xcc, 0xdd, 0xee, 0xff] : List Nat).length = 6 ∧
      (icmp6_send_router_solicitation ⟨16, 0⟩
        [0xaa, 0xbb, 0xcc, 0xdd, 0xee, 0xff]).packet.length = 16 ∧
      (icmp6_send_router_solicitation ⟨16, 0⟩
        [0xaa, 0xbb, 0xcc, 0xdd, 0xee, 0xff]).packet.drop 10 =
        [0xaa, 0xbb, 0xcc, 0xdd, 0xee, 0xff] :=
  ⟨by decide,
   (icmp6_send_router_solicitation_wire_format ⟨16, 0⟩
     [0xaa, 0xbb, 0xcc, 0xdd, 0xee, 0xff] (by decide)).1,
   (icmp6_send_router_solicitation_wire_format ⟨16, 0⟩
     [0xaa, 0xbb, 0xcc, 0xdd, 0xee, 0xff] (by decide)).2.2.2.2.2⟩

/-! ## C9: malformed hop-limit entries are ignored -/

theorem receiveTail_no_emultihop_of_malformed (env : ClockEnv)
    (buf : List Nat) (size : Nat) (d : Delivery) (addr : List Nat)
    (hmal : ∀ c ∈ d.cmsgs, hopLimitTypedCmsg c → c.cmsg_len ≠ CMSG_LEN sizeof_int) :
    (receiveTail env buf size d addr).retCode ≠ some (-(EMULTIHOP : Int)) := by
  by_cases hnt : d.data.length > size
  · simp [receiveTail, if_pos hnt, CallResult.retCode]
  · simp only [receiveTail, if_neg hnt]
    cases hs : scanCmsgs env d.cmsgs triple_timestamp_zero with
    | error e =>
        obtain ⟨_, c, hc, hwf, _⟩ :=
          scanCmsgs_error_elim env d.cmsgs triple_timestamp_zero e hs
        exact absurd hwf.2.2 (hmal c hc ⟨hwf.1, hwf.2.1⟩)
    | ok t =>
        simp only [CallResult.retCode, ne_eq, Option.some.injEq]
        intro h
        have : (0 : Int) = -(EMULTIHOP : Int) := h
        simp [EMULTIHOP] at this

/-- C9: a hop-limit-typed ancillary entry whose `cmsg_len` is not
`CMSG_LEN(sizeof(int))` is skipped by the scan rather than validated:
no datagram all of whose hop-limit-typed entries are malformed in this way
is ever rejected with `-EMULTIHOP`, and such a datagram can be returned as
success even when the malformed entry carries a value other than 255. -/
theorem icmp6_receive_malformed_hoplimit_ignored :
    (∀ (env : ClockEnv) (buffer : List Nat) (size : Nat) (d : Delivery),
      (∀ c ∈ d.cmsgs, hopLimitTypedCmsg c → c.cmsg_len ≠ CMSG_LEN sizeof_int) →
      (icmp6_receive env buffer size (.dgram d)).retCode ≠
        some (-(EMULTIHOP : Int)))
    ∧ (∃ (env : ClockEnv) (buffer : List Nat) (size : Nat) (d : Delivery)
        (c : Cmsg),
      d.cmsgs = [c] ∧ hopLimitTypedCmsg c ∧ c.cmsg_len ≠ CMSG_LEN sizeof_int ∧
      cmsgInt c ≠ 255 ∧
      (icmp6_receive env buffer size (.dgram d)).isSuccess = true) := by
  constructor
  · intro env buffer size d hmal
    simp only [icmp6_receive]
    split_ifs with h1 h2 h3 h4
    · simp only [CallResult.retCode, ne_eq, Option.some.injEq]
      decide
    · simp only [CallResult.retCode, ne_eq, Option.some.injEq]
      decide
    · exact receiveTail_no_emultihop_of_malformed env _ size d d.senderAddr hmal
    · simp only [CallResult.retCode, ne_eq, Option.some.injEq]
      decide
    · exact receiveTail_no_emultihop_of_malformed env _ size d zero_in6_addr hmal
  · refine ⟨⟨100, 200, 300⟩, [9], 1,
      ⟨[133], 0, 0, [], [⟨SOL_IPV6, IPV6_HOPLIMIT, CMSG_LEN 1, [7]⟩]⟩,
      ⟨SOL_IPV6, IPV6_HOPLIMIT, CMSG_LEN 1, [7]⟩,
      rfl, by decide, by decide, by decide, by decide⟩

/-- Witness for C9: a datagram whose only hop-limit-typed entry has
`cmsg_len = CMSG_LEN(1)` and value 7 is not rejected with `-EMULTIHOP`. -/
theorem icmp6_receive_malformed_hoplimit_ignored_witness :
    (∀ c ∈ [(⟨SOL_IPV6, IPV6_HOPLIMIT, CMSG_LEN 1, [7]⟩ : Cmsg)],
      hopLimitTypedCmsg c → c.cmsg_len ≠ CMSG_LEN sizeof_int) ∧
    (icmp6_receive ⟨100, 200, 300⟩ [9] 1
      (.dgram ⟨[133], 0, 0, [],
        [⟨SOL_IPV6, IPV6_HOPLIMIT, CMSG_LEN 1, [7]⟩]⟩)).retCode ≠
      some (-(EMULTIHOP : Int)) :=
  ⟨by decide,
   icmp6_receive_malformed_hoplimit_ignored.1 ⟨100, 200, 300⟩ [9] 1
     ⟨[133], 0, 0, [], [⟨SOL_IPV6, IPV6_HOPLIMIT, CMSG_LEN 1, [7]⟩]⟩
     (by decide)⟩

theorem receiveTail_outputs (env : ClockEnv) (buf : List Nat) (size : Nat)
    (d : Delivery) (addr : List Nat) :
    ((receiveTail env buf size d addr).isSuccess = false →
      (receiveTail env buf size d addr).senderOut = none ∧
      (receiveTail env buf size d addr).timestampOut = none)
    ∧ ((receiveTail env buf size d addr).isSuccess = true →
      (∃ a, (receiveTail env buf size d addr).senderOut = some a) ∧
      (∃ t, (receiveTail env buf size d addr).timestampOut = some t)) := by
  by_cases hnt : d.data.length > size
  · simp only [receiveTail, if_pos hnt]
    exact ⟨fun _ => ⟨rfl, rfl⟩, fun h => by simp [CallResult.isSuccess] at h⟩
  · simp only [receiveTail, if_neg hnt]
    cases hs : scanCmsgs env d.cmsgs triple_timestamp_zero with
    | error e =>
        refine ⟨fun _ => ⟨rfl, rfl⟩, fun h => ?_⟩
        obtain ⟨he, _⟩ :=
          scanCmsgs_error_elim env d.cmsgs triple_timestamp_zero e hs
        subst he
        simp only [CallResult.isSuccess, decide_eq_true_eq] at h
        exact absurd h (by decide)
    | ok t =>
        exact ⟨fun h => by simp [CallResult.isSuccess] at h,
          fun _ => ⟨⟨addr, rfl⟩, ⟨_, rfl⟩⟩⟩

/-! ## C8: outputs on failure (corrected) -/

/-- Counterexample to C8 as stated: a size-mismatched delivery is rejected
with `-EINVAL`, yet the caller's data buffer has already been overwritten
in place by `recvmsg`, so not every caller-visible output is left
untouched on failure. -/
theorem icmp6_receive_buffer_written_on_failure :
    (icmp6_receive ⟨0, 0, 0⟩ [9, 9] 2
      (.dgram ⟨[4], 0, 0, [], []⟩)).isSuccess = false ∧
    (icmp6_receive ⟨0, 0, 0⟩ [9, 9] 2
      (.dgram ⟨[4], 0, 0, [], []⟩)).bufferOut = [4, 9] ∧
    ([4, 9] : List Nat) ≠ [9, 9] := by
  decide

/-- C8 as amended: the pointer outputs (sender address and timestamp) are
written exactly on success — on any rejection or failure they stay
unwritten — while the data buffer is filled in place by the kernel receive
itself, before validation.  The side condition says a failing `recvmsg`
reports a genuinely negative code, as in the C source. -/
theorem icmp6_receive_pointer_outputs_only_on_success (env : ClockEnv)
    (buffer : List Nat) (size : Nat) (input : RecvInput)
    (hinput : ∀ e, input = RecvInput.err e → 0 < e) :
    ((icmp6_receive env buffer size input).isSuccess = false →
      (icmp6_receive env buffer size input).senderOut = none ∧
      (icmp6_receive env buffer size input).timestampOut = none)
    ∧ ((icmp6_receive env buffer size input).isSuccess = true →
      (∃ a, (icmp6_receive env buffer size input).senderOut = some a) ∧
      (∃ t, (icmp6_receive env buffer size input).timestampOut = some t)) := by
  cases input with
  | err e =>
      have he : 0 < e := hinput e rfl
      constructor
      · intro _
        exact ⟨rfl, rfl⟩
      · intro h
        simp only [icmp6_receive, CallResult.isSuccess, decide_eq_true_eq] at h
        omega
  | dgram d =>
      simp only [icmp6_receive]
      split_ifs with h1 h2 h3 h4
      · refine ⟨fun _ => ⟨rfl, rfl⟩, fun h => ?_⟩
        simp only [CallResult.isSuccess, decide_eq_true_eq] at h
        exact absurd h (by decide)
      · refine ⟨fun _ => ⟨rfl, rfl⟩, fun h => ?_⟩
        simp only [CallResult.isSuccess, decide_eq_true_eq] at h
        exact absurd h (by decide)
      · exact receiveTail_outputs env _ size d d.senderAddr
      · refine ⟨fun _ => ⟨rfl, rfl⟩, fun h => ?_⟩
        simp only [CallResult.isSuccess, decide_eq_true_eq] at h
        exact absurd h (by decide)
      · exact receiveTail_outputs env _ size d zero_in6_addr

/-- Witness for C8's amended theorem: on the `-EINVAL` rejection of a
short datagram both pointer outputs stay unwritten. -/
theorem icmp6_receive_pointer_outputs_only_on_success_witness :
    (icmp6_receive ⟨0, 0, 0⟩ [9, 9] 2
      (.dgram ⟨[4], 0, 0, [], []⟩)).isSuccess = false ∧
    (icmp6_receive ⟨0, 0, 0⟩ [9, 9] 2
      (.dgram ⟨[4], 0, 0, [], []⟩)).senderOut = none ∧
    (icmp6_receive ⟨0, 0, 0⟩ [9, 9] 2
      (.dgram ⟨[4], 0, 0, [], []⟩)).timestampOut = none :=
  ⟨by decide,
   (icmp6_receive_pointer_outputs_only_on_success ⟨0, 0, 0⟩ [9, 9] 2
     (.dgram ⟨[4], 0, 0, [], []⟩) (fun e h => by cases h)).1 (by decide)⟩

/-! ## C7: timestamp derivation (corrected) -/

theorem receiveTail_success_timestamp (env : ClockEnv) (buf : List Nat)
    (size : Nat) (d : Delivery) (addr : List Nat)
    (hsucc : (receiveTail env buf size d addr).isSuccess = true) :
    ∃ t, scanCmsgs env d.cmsgs triple_timestamp_zero = .ok t ∧
      (receiveTail env buf size d addr).timestampOut =
        some (if triple_timestamp_is_set t then t else triple_timestamp_get env) := by
  by_cases hnt : d.data.length > size
  · simp [receiveTail, if_pos hnt, CallResult.isSuccess] at hsucc
  · simp only [receiveTail, if_neg hnt] at hsucc ⊢
    cases hs : scanCmsgs env d.cmsgs triple_timestamp_zero with
    | error e =>
        rw [hs] at hsucc
        obtain ⟨he, _⟩ :=
          scanCmsgs_error_elim env d.cmsgs triple_timestamp_zero e hs
        subst he
        simp only [CallResult.isSuccess, decide_eq_true_eq] at hsucc
        exact absurd hsucc (by decide)
    | ok t =>
        exact ⟨t, rfl, rfl⟩

theorem icmp6_receive_success_timestamp (env : ClockEnv) (buffer : List Nat)
    (size : Nat) (d : Delivery)
    (hsucc : (icmp6_receive env buffer size (.dgram d)).isSuccess = true) :
    ∃ t, scanCmsgs env d.cmsgs triple_timestamp_zero = .ok t ∧
      (icmp6_receive env buffer size (.dgram d)).timestampOut =
        some (if triple_timestamp_is_set t then t else triple_timestamp_get env) := by
  simp only [icmp6_receive] at hsucc ⊢
  split_ifs at hsucc ⊢ with h1 h2 h3 h4
  · simp only [CallResult.isSuccess, decide_eq_true_eq] at hsucc
    exact absurd hsucc (by decide)
  · simp only [CallResult.isSuccess, decide_eq_true_eq] at hsucc
    exact absurd hsucc (by decide)
  · exact receiveTail_success_timestamp env _ size d d.senderAddr hsucc
  · simp only [CallResult.isSuccess, decide_eq_true_eq] at hsucc
    exact absurd hsucc (by decide)
  · exact receiveTail_success_timestamp env _ size d zero_in6_addr hsucc

/-- Counterexample to C7 as stated: a datagram whose only ancillary entry is
a well-formed kernel receive-timestamp carrying the timeval 0.0 is accepted,
yet its returned timestamp is the fallback current-time sample, not the
conversion of the delivered entry — so "entry present" does not imply the
conversion path produced the output. -/
theorem icmp6_receive_timestamp_entry_not_always_used :
    timestampCmsg
      ⟨SOL_SOCKET, SCM_TIMESTAMP, CMSG_LEN sizeof_timeval, List.replicate 16 0⟩ ∧
    (icmp6_receive ⟨100, 200, 300⟩ [9] 1
      (.dgram ⟨[133], 0, 0, [],
        [⟨SOL_SOCKET, SCM_TIMESTAMP, CMSG_LEN sizeof_timeval,
          List.replicate 16 0⟩]⟩)).isSuccess = true ∧
    (icmp6_receive ⟨100, 200, 300⟩ [9] 1
      (.dgram ⟨[133], 0, 0, [],
        [⟨SOL_SOCKET, SCM_TIMESTAMP, CMSG_LEN sizeof_timeval,
          List.replicate 16 0⟩]⟩)).timestampOut =
      some (triple_timestamp_get ⟨100, 200, 300⟩) ∧
    (icmp6_receive ⟨100, 200, 300⟩ [9] 1
      (.dgram ⟨[133], 0, 0, [],
        [⟨SOL_SOCKET, SCM_TIMESTAMP, CMSG_LEN sizeof_timeval,
          List.replicate 16 0⟩]⟩)).timestampOut ≠
      some (triple_timestamp_from_realtime ⟨100, 200, 300⟩
        (timeval_load (cmsgTimeval
          ⟨SOL_SOCKET, SCM_TIMESTAMP, CMSG_LEN sizeof_timeval,
            List.replicate 16 0⟩))) := by
  decide

/-- C7 as amended: on success, the returned timestamp comes from the
conversion of the delivered kernel timestamp entry when that conversion is
a set (nonzero) timestamp, and from sampling the current clocks otherwise —
in particular always from sampling when no timestamp entry was present, and
also when a present entry converts to an unset value (e.g. a zero timeval).
Stated for the empty-scan case and for a single well-formed entry. -/
theorem icmp6_receive_timestamp_paths (env : ClockEnv) (buffer : List Nat)
    (size : Nat) (d : Delivery)
    (hsucc : (icmp6_receive env buffer size (.dgram d)).isSuccess = true) :
    ((∀ c ∈ d.cmsgs, ¬ timestampCmsg c) →
      (icmp6_receive env buffer size (.dgram d)).timestampOut =
        some (triple_timestamp_get env))
    ∧ (∀ c, d.cmsgs = [c] → timestampCmsg c →
        triple_timestamp_is_set
          (triple_timestamp_from_realtime env (timeval_load (cmsgTimeval c))) = true →
        (icmp6_receive env buffer size (.dgram d)).timestampOut =
          some (triple_timestamp_from_realtime env (timeval_load (cmsgTimeval c))))
    ∧ (∀ c, d.cmsgs = [c] → timestampCmsg c →
        triple_timestamp_is_set
          (triple_timestamp_from_realtime env (timeval_load (cmsgTimeval c))) = false →
        (icmp6_receive env buffer size (.dgram d)).timestampOut =
          some (triple_timestamp_get env)) := by
  obtain ⟨t, hscan, hout⟩ := icmp6_receive_success_timestamp env buffer size d hsucc
  refine ⟨?_, ?_, ?_⟩
  · intro hno
    have ht := scanCmsgs_ok_of_noTimestamp env d.cmsgs triple_timestamp_zero t hno hscan
    rw [hout, ht, if_neg (by decide)]
  · intro c hc hts hset
    rw [hc] at hscan
    have hconv :
        triple_timestamp_from_realtime env (timeval_load (cmsgTimeval c)) = t := by
      have := (scanCmsgs_singleton_timestamp env c triple_timestamp_zero hts).symm.trans hscan
      injection this
    rw [hout, ← hconv, if_pos hset]
  · intro c hc hts hset
    rw [hc] at hscan
    have hconv :
        triple_timestamp_from_realtime env (timeval_load (cmsgTimeval c)) = t := by
      have := (scanCmsgs_singleton_timestamp env c triple_timestamp_zero hts).symm.trans hscan
      injection this
    have hne : ¬ (triple_timestamp_is_set
        (triple_timestamp_from_realtime env (timeval_load (cmsgTimeval c))) = true) := by
      rw [hset]
      decide
    rw [hout, ← hconv, if_neg hne]

/-- Witness for C7's amended theorem: with no ancillary entries at all, the
returned timestamp is the current-time sample. -/
theorem icmp6_receive_timestamp_paths_witness :
    (icmp6_receive ⟨100, 200, 300⟩ [9] 1
      (.dgram ⟨[133], 0, 0, [], []⟩)).isSuccess = true ∧
    (icmp6_receive ⟨100, 200, 300⟩ [9] 1
      (.dgram ⟨[133], 0, 0, [], []⟩)).timestampOut =
      some (triple_timestamp_get ⟨100, 200, 300⟩) :=
  ⟨by decide,
   (icmp6_receive_timestamp_paths ⟨100, 200, 300⟩ [9] 1
     ⟨[133], 0, 0, [], []⟩ (by decide)).1 (by decide)⟩

/-! ## C10: send success criterion -/

/-- C10: `icmp6_send_router_solicitation` reports success exactly when
`sendmsg` returned a non-negative byte count — the count itself is never
compared against the 16-byte packet length — and surfaces `-errno` for a
negative result. -/
theorem icmp6_send_status_ignores_byte_count (env : SendEnv)
    (mac : List Nat) :
    (0 ≤ env.sendmsgRet → (icmp6_send_router_solicitation env mac).ret = 0) ∧
    (env.sendmsgRet < 0 →
      (icmp6_send_router_solicitation env mac).ret = -(env.errnoVal : Int)) := by
  constructor
  · intro h
    simp [icmp6_send_router_solicitation, not_lt.mpr h]
  · intro h
    simp [icmp6_send_router_solicitation, h]

/-- Witness for C10: a short write of 5 of the 16 packet bytes is still
reported as success. -/
theorem icmp6_send_status_ignores_byte_count_witness :
    (0 : Int) ≤ 5 ∧
      (icmp6_send_router_solicitation ⟨5, 0⟩
        [0xaa, 0xbb, 0xcc, 0xdd, 0xee, 0xff]).packet.length = 16 ∧
      (icmp6_send_router_solicitation ⟨5, 0⟩
        [0xaa, 0xbb, 0xcc, 0xdd, 0xee, 0xff]).ret = 0 :=
  ⟨by decide, by decide,
   (icmp6_send_status_ignores_byte_count ⟨5, 0⟩
     [0xaa, 0xbb, 0xcc, 0xdd, 0xee, 0xff]).1 (by decide)⟩

/-! ## C5: the two bind variants and their configurations -/

set_option maxRecDepth 8192 in
theorem solicitation_filter_passes_only_advert :
    ∀ t, t < 256 →
      (ICMP6_FILTER_WILLPASS t solicitation_filter = true ↔ t = ND_ROUTER_ADVERT) := by
  decide

set_option maxRecDepth 8192 in
theorem advertisement_filter_passes_only_solicit :
    ∀ t, t < 256 →
      (ICMP6_FILTER_WILLPASS t advertisement_filter = true ↔ t = ND_ROUTER_SOLICIT) := by
  decide

/-- C5: both public binders are the shared routine applied to their
(filter, group) pair; when every kernel step succeeds, the
solicitation-side socket carries a filter passing exactly the Router
Advertisement type (134) and joins ff02::1, and the advertisement-side
socket carries a filter passing exactly the Router Solicitation type (133)
and joins ff02::2. -/
theorem icmp6_bind_configurations (env : BindEnv) (ifindex : Int)
    (hok : 0 ≤ env.socketRet ∧ 0 ≤ env.filterRet ∧ 0 ≤ env.membershipRet ∧
      0 ≤ env.multicastIfRet ∧ 0 ≤ env.multicastLoopRet ∧
      0 ≤ env.multicastHopsRet ∧ 0 ≤ env.unicastHopsRet ∧
      0 ≤ env.recvHopLimitRet ∧ 0 ≤ env.timestampRet ∧
      0 ≤ env.bindIfindexRet) :
    icmp6_bind_router_solicitation env ifindex =
      icmp6_bind_router_message env solicitation_filter
        ⟨IN6ADDR_ALL_NODES_MULTICAST, ifindex⟩
    ∧ icmp6_bind_router_advertisement env ifindex =
      icmp6_bind_router_message env advertisement_filter
        ⟨IN6ADDR_ALL_ROUTERS_MULTICAST, ifindex⟩
    ∧ (icmp6_bind_router_solicitation env ifindex).config =
      some ⟨solicitation_filter, IN6ADDR_ALL_NODES_MULTICAST, ifindex, false,
        255, 255, true, true, ifindex⟩
    ∧ (icmp6_bind_router_advertisement env ifindex).config =
      some ⟨advertisement_filter, IN6ADDR_ALL_ROUTERS_MULTICAST, ifindex, false,
        255, 255, true, true, ifindex⟩
    ∧ (∀ t, t < 256 →
        (ICMP6_FILTER_WILLPASS t solicitation_filter = true ↔ t = ND_ROUTER_ADVERT))
    ∧ (∀ t, t < 256 →
        (ICMP6_FILTER_WILLPASS t advertisement_filter = true ↔
          t = ND_ROUTER_SOLICIT)) := by
  obtain ⟨h0, h1, h2, h3, h4, h5, h6, h7, h8, h9⟩ := hok
  have hcfg : ∀ filter mreq,
      (icmp6_bind_router_message env filter mreq).config =
        some ⟨filter, mreq.ipv6mr_multiaddr, mreq.ipv6mr_interface, false,
          255, 255, true, true, mreq.ipv6mr_interface⟩ := by
    intro filter mreq
    simp only [icmp6_bind_router_message, if_neg (not_lt.mpr h0),
      if_neg (not_lt.mpr h1), if_neg (not_lt.mpr h2), if_neg (not_lt.mpr h3),
      if_neg (not_lt.mpr h4), if_neg (not_lt.mpr h5), if_neg (not_lt.mpr h6),
      if_neg (not_lt.mpr h7), if_neg (not_lt.mpr h8), if_neg (not_lt.mpr h9)]
  exact ⟨rfl, rfl, hcfg solicitation_filter ⟨IN6ADDR_ALL_NODES_MULTICAST, ifindex⟩,
    hcfg advertisement_filter ⟨IN6ADDR_ALL_ROUTERS_MULTICAST, ifindex⟩,
    solicitation_filter_passes_only_advert,
    advertisement_filter_passes_only_solicit⟩

/-- Witness for C5: an all-successful kernel environment on interface 3. -/
theorem icmp6_bind_configurations_witness :
    (icmp6_bind_router_solicitation ⟨5, 0, 0, 0, 0, 0, 0, 0, 0, 0⟩ 3).config =
      some ⟨solicitation_filter, IN6ADDR_ALL_NODES_MULTICAST, 3, false,
        255, 255, true, true, 3⟩ ∧
    (icmp6_bind_router_advertisement ⟨5, 0, 0, 0, 0, 0, 0, 0, 0, 0⟩ 3).config =
      some ⟨advertisement_filter, IN6ADDR_ALL_ROUTERS_MULTICAST, 3, false,
        255, 255, true, true, 3⟩ :=
  ⟨(icmp6_bind_configurations ⟨5, 0, 0, 0, 0, 0, 0, 0, 0, 0⟩ 3
     (by norm_num)).2.2.1,
   (icmp6_bind_configurations ⟨5, 0, 0, 0, 0, 0, 0, 0, 0, 0⟩ 3
     (by norm_num)).2.2.2.1⟩

/-! ## C6: no descriptor leak -/

theorem bind_fail_outcome (env : BindEnv) (filter : List Nat)
    (mreq : ipv6_mreq) (hsock : 0 ≤ env.socketRet)
    (hfail : env.filterRet < 0 ∨ env.membershipRet < 0 ∨
      env.multicastIfRet < 0 ∨ env.multicastLoopRet < 0 ∨
      env.multicastHopsRet < 0 ∨ env.unicastHopsRet < 0 ∨
      env.recvHopLimitRet < 0 ∨ env.timestampRet < 0 ∨
      env.bindIfindexRet < 0) :
    (icmp6_bind_router_message env filter mreq).ret < 0 ∧
    (icmp6_bind_router_message env filter mreq).opened = true ∧
    (icmp6_bind_router_message env filter mreq).closed = true ∧
    (icmp6_bind_router_message env filter mreq).config = none := by
  simp only [icmp6_bind_router_message, if_neg (not_lt.mpr hsock)]
  by_cases h1 : env.filterRet < 0
  · simp only [if_pos h1]
    exact ⟨h1, by simp, by simp, by simp⟩
  · simp only [if_neg h1]
    by_cases h2 : env.membershipRet < 0
    · simp only [if_pos h2]
      exact ⟨h2, by simp, by simp, by simp⟩
    · simp only [if_neg h2]
      by_cases h3 : env.multicastIfRet < 0
      · simp only [if_pos h3]
        exact ⟨h3, by simp, by simp, by simp⟩
      · simp only [if_neg h3]
        by_cases h4 : env.multicastLoopRet < 0
        · simp only [if_pos h4]
          exact ⟨h4, by simp, by simp, by simp⟩
        · simp only [if_neg h4]
          by_cases h5 : env.multicastHopsRet < 0
          · simp only [if_pos h5]
            exact ⟨h5, by simp, by simp, by simp⟩
          · simp only [if_neg h5]
            by_cases h6 : env.unicastHopsRet < 0
            · simp only [if_pos h6]
              exact ⟨h6, by simp, by simp, by simp⟩
            · simp only [if_neg h6]
              by_cases h7 : env.recvHopLimitRet < 0
              · simp only [if_pos h7]
                exact ⟨h7, by simp, by simp, by simp⟩
              · simp only [if_neg h7]
                by_cases h8 : env.timestampRet < 0
                · simp only [if_pos h8]
                  exact ⟨h8, by simp, by simp, by simp⟩
                · simp only [if_neg h8]
                  by_cases h9 : env.bindIfindexRet < 0
                  · simp only [if_pos h9]
                    exact ⟨h9, by simp, by simp, by simp⟩
                  · rcases hfail with h | h | h | h | h | h | h | h | h
                    exacts [absurd h h1, absurd h h2, absurd h h3, absurd h h4,
                      absurd h h5, absurd h h6, absurd h h7, absurd h h8,
                      absurd h h9]

theorem bind_success_outcome (env : BindEnv) (filter : List Nat)
    (mreq : ipv6_mreq) (hsock : 0 ≤ env.socketRet)
    (hall : 0 ≤ env.filterRet ∧ 0 ≤ env.membershipRet ∧
      0 ≤ env.multicastIfRet ∧ 0 ≤ env.multicastLoopRet ∧
      0 ≤ env.multicastHopsRet ∧ 0 ≤ env.unicastHopsRet ∧
      0 ≤ env.recvHopLimitRet ∧ 0 ≤ env.timestampRet ∧
      0 ≤ env.bindIfindexRet) :
    (icmp6_bind_router_message env filter mreq).ret = env.socketRet ∧
    (icmp6_bind_router_message env filter mreq).opened = true ∧
    (icmp6_bind_router_message env filter mreq).closed = false ∧
    (icmp6_bind_router_message env filter mreq).config ≠ none := by
  obtain ⟨a1, a2, a3, a4, a5, a6, a7, a8, a9⟩ := hall
  simp only [icmp6_bind_router_message, if_neg (not_lt.mpr hsock),
    if_neg (not_lt.mpr a1), if_neg (not_lt.mpr a2), if_neg (not_lt.mpr a3),
    if_neg (not_lt.mpr a4), if_neg (not_lt.mpr a5), if_neg (not_lt.mpr a6),
    if_neg (not_lt.mpr a7), if_neg (not_lt.mpr a8), if_neg (not_lt.mpr a9)]
  exact ⟨by simp, by simp, by simp, by simp⟩

/-- C6: once `socket()` has succeeded, any failing setup step makes the
shared binder return that step's negative code with the descriptor closed
by the cleanup guard and no configuration handed out; when every step
succeeds the descriptor is returned open, ownership transferred, with the
full configuration installed. -/
theorem icmp6_bind_no_descriptor_leak (env : BindEnv) (filter : List Nat)
    (mreq : ipv6_mreq) (hsock : 0 ≤ env.socketRet) :
    ((env.filterRet < 0 ∨ env.membershipRet < 0 ∨ env.multicastIfRet < 0 ∨
      env.multicastLoopRet < 0 ∨ env.multicastHopsRet < 0 ∨
      env.unicastHopsRet < 0 ∨ env.recvHopLimitRet < 0 ∨
      env.timestampRet < 0 ∨ env.bindIfindexRet < 0) →
      (icmp6_bind_router_message env filter mreq).ret < 0 ∧
      (icmp6_bind_router_message env filter mreq).opened = true ∧
      (icmp6_bind_router_message env filter mreq).closed = true ∧
      (icmp6_bind_router_message env filter mreq).config = none)
    ∧ ((0 ≤ env.filterRet ∧ 0 ≤ env.membershipRet ∧ 0 ≤ env.multicastIfRet ∧
        0 ≤ env.multicastLoopRet ∧ 0 ≤ env.multicastHopsRet ∧
        0 ≤ env.unicastHopsRet ∧ 0 ≤ env.recvHopLimitRet ∧
        0 ≤ env.timestampRet ∧ 0 ≤ env.bindIfindexRet) →
      (icmp6_bind_router_message env filter mreq).ret = env.socketRet ∧
      (icmp6_bind_router_message env filter mreq).opened = true ∧
      (icmp6_bind_router_message env filter mreq).closed = false ∧
      (icmp6_bind_router_message env filter mreq).config ≠ none) :=
  ⟨bind_fail_outcome env filter mreq hsock,
   bind_success_outcome env filter mreq hsock⟩

/-- Witness for C6: with a successful `socket()` and the multicast-join
step failing with `-ENODEV` (-19), the binder reports the failure with the
descriptor closed; with an all-successful environment it returns the
descriptor unclosed. -/
theorem icmp6_bind_no_descriptor_leak_witness :
    ((icmp6_bind_router_message ⟨7, 0, -19, 0, 0, 0, 0, 0, 0, 0⟩
        solicitation_filter ⟨IN6ADDR_ALL_NODES_MULTICAST, 3⟩).ret < 0 ∧
      (icmp6_bind_router_message ⟨7, 0, -19, 0, 0, 0, 0, 0, 0, 0⟩
        solicitation_filter ⟨IN6ADDR_ALL_NODES_MULTICAST, 3⟩).opened = true ∧
      (icmp6_bind_router_message ⟨7, 0, -19, 0, 0, 0, 0, 0, 0, 0⟩
        solicitation_filter ⟨IN6ADDR_ALL_NODES_MULTICAST, 3⟩).closed = true ∧
      (icmp6_bind_router_message ⟨7, 0, -19, 0, 0, 0, 0, 0, 0, 0⟩
        solicitation_filter ⟨IN6ADDR_ALL_NODES_MULTICAST, 3⟩).config = none) ∧
    ((icmp6_bind_router_message ⟨7, 0, 0, 0, 0, 0, 0, 0, 0, 0⟩
        solicitation_filter ⟨IN6ADDR_ALL_NODES_MULTICAST, 3⟩).ret = 7 ∧
      (icmp6_bind_router_message ⟨7, 0, 0, 0, 0, 0, 0, 0, 0, 0⟩
        solicitation_filter ⟨IN6ADDR_ALL_NODES_MULTICAST, 3⟩).closed = false) :=
  ⟨(icmp6_bind_no_descriptor_leak ⟨7, 0, -19, 0, 0, 0, 0, 0, 0, 0⟩
      solicitation_filter ⟨IN6ADDR_ALL_NODES_MULTICAST, 3⟩ (by norm_num)).1
      (by norm_num),
   ⟨((icmp6_bind_no_descriptor_leak ⟨7, 0, 0, 0, 0, 0, 0, 0, 0, 0⟩
       solicitation_filter ⟨IN6ADDR_ALL_NODES_MULTICAST, 3⟩ (by norm_num)).2
       (by norm_num)).1,
    ((icmp6_bind_no_descriptor_leak ⟨7, 0, 0, 0, 0, 0, 0, 0, 0, 0⟩
       solicitation_filter ⟨IN6ADDR_ALL_NODES_MULTICAST, 3⟩ (by norm_num)).2
       (by norm_num)).2.2.1⟩⟩

end Icmp6Util

